import Mathlib

/-!
A shallow embedding of the Laxmi Enterprise backend (src/schemas.py and
src/main.py) in Lean 4, together with theorems settling the specification
claims about order intake, notification dispatch, the admin gate, the
singleton business-profile upsert, and catalog CRUD.

Modelling conventions:
- Machine floats (pydantic `float` fields) are embedded as rationals.
- The MongoDB store is a record of association lists keyed by a
  store-assigned identifier string; `create_document` appends and assigns
  the next fresh identifier.
- Each endpoint is a pure function from its inputs and the store state to
  a result, the successor state, the list of store events it performed in
  order, and the list of background tasks it scheduled.
- Dict responses of the Python handlers become small Lean structures.
-/

/-- Embeds `schemas.Product`: pydantic model with required `title`
(plain `str`, no minimum length), optional `description`, required
`price` with the `ge=0` bound, required `category`, `in_stock`
defaulting to `true`, optional `image_url`. -/
structure Product where
  title : String
  description : Option String
  price : ℚ
  category : String
  in_stock : Bool
  image_url : Option String
  deriving Repr, DecidableEq

/-- Embeds `schemas.Business`: required `name`, required `email`
(`EmailStr`), optional phone and address fields. -/
structure Business where
  name : String
  email : String
  phone : Option String
  address_line1 : Option String
  address_line2 : Option String
  city : Option String
  state : Option String
  postal_code : Option String
  country : Option String
  deriving Repr, DecidableEq

/-- Embeds `schemas.InkOrder`: required `customer_name` (plain `str`),
required `customer_email` (`EmailStr`), optional `customer_phone`,
required `color` (plain `str`, no constraint beyond presence), required
`quantity_liters` with the `gt=0` bound, optional `message` and
`delivery_address`. -/
structure InkOrder where
  customer_name : String
  customer_email : String
  customer_phone : Option String
  color : String
  quantity_liters : ℚ
  message : Option String
  delivery_address : Option String
  deriving Repr, DecidableEq

/-- Abstraction of pydantic `EmailStr` syntax checking: one `@` splitting
a non-empty local part from a domain that holds a dot and does not start
or end with one.  No claim depends on the exact accepted language; the
witnesses below use addresses every reasonable checker accepts. -/
def isEmailStr (s : String) : Bool :=
  let cs := s.data
  let l := cs.takeWhile (fun c => c ≠ '@')
  let d := (cs.dropWhile (fun c => c ≠ '@')).drop 1
  decide (cs.count '@' = 1) && decide (l ≠ []) && decide (d ≠ []) &&
    d.contains '.' && decide (d.head? ≠ some '.') &&
    decide (d.getLast? ≠ some '.')

/-- An incoming JSON body for `InkOrder` before pydantic validation:
each field is present or absent. -/
structure InkOrderPayload where
  customer_name : Option String
  customer_email : Option String
  customer_phone : Option String
  color : Option String
  quantity_liters : Option ℚ
  message : Option String
  delivery_address : Option String
  deriving Repr, DecidableEq

/-- Pydantic validation of `InkOrder` as declared in src/schemas.py:
required fields must be present, `customer_email` must satisfy the
email-syntax check, `quantity_liters` must be strictly positive.  The
`color` and `customer_name` fields carry no constraint beyond presence:
a plain `str` field accepts the empty string. -/
def validateInkOrder (p : InkOrderPayload) : Except String InkOrder :=
  match p.customer_name with
  | none => .error "customer_name: field required"
  | some nm =>
    match p.customer_email with
    | none => .error "customer_email: field required"
    | some em =>
      match p.color with
      | none => .error "color: field required"
      | some col =>
        match p.quantity_liters with
        | none => .error "quantity_liters: field required"
        | some q =>
          if !isEmailStr em then
            .error "customer_email: value is not a valid email address"
          else if q ≤ 0 then
            .error "quantity_liters: ensure this value is greater than 0"
          else
            .ok ⟨nm, em, p.customer_phone, col, q, p.message,
                 p.delivery_address⟩

/-- An incoming JSON body for `Product` before pydantic validation. -/
structure ProductPayload where
  title : Option String
  description : Option String
  price : Option ℚ
  category : Option String
  in_stock : Option Bool
  image_url : Option String
  deriving Repr, DecidableEq

/-- Pydantic validation of `Product` as declared in src/schemas.py:
`title`, `price`, `category` must be present, `price` must satisfy
`ge=0`, `in_stock` defaults to `true`.  The `title` field is a plain
`str`: presence is required but the empty string is accepted. -/
def validateProduct (p : ProductPayload) : Except String Product :=
  match p.title with
  | none => .error "title: field required"
  | some t =>
    match p.price with
    | none => .error "price: field required"
    | some pr =>
      match p.category with
      | none => .error "category: field required"
      | some cat =>
        if pr < 0 then
          .error "price: ensure this value is greater than or equal to 0"
        else
          .ok ⟨t, p.description, pr, cat, p.in_stock.getD true, p.image_url⟩

/-- The process environment: an association list of variable settings,
embedding `os.environ`. -/
def Env : Type := List (String × String)

/-- Embeds `os.getenv(key)` without a default. -/
def getenv (env : Env) (k : String) : Option String :=
  (List.find? (fun e => e.1 = k) env).map (fun e => e.2)

/-- Embeds `os.getenv(key, default)`. -/
def getenvD (env : Env) (k d : String) : String :=
  (getenv env k).getD d

/-- Embeds `ADMIN_TOKEN = os.getenv("ADMIN_TOKEN", "changeme")` from
src/main.py line 28. -/
def ADMIN_TOKEN (env : Env) : String :=
  getenvD env "ADMIN_TOKEN" "changeme"

/-- Embeds `bson.objectid.ObjectId.is_valid` on a string argument: a
valid identifier is exactly 24 hexadecimal digits. -/
def ObjectId.is_valid (s : String) : Bool :=
  decide (s.data.length = 24) &&
    s.data.all
      (fun c => c.isDigit || ('a' ≤ c && c ≤ 'f') || ('A' ≤ c && c ≤ 'F'))

/-- The MongoDB-backed store: one association list per collection used by
src/main.py, each entry carrying its store-assigned `_id`, plus the
counter from which fresh identifiers are drawn. -/
structure Store where
  products : List (String × Product)
  businesses : List (String × Business)
  inkorders : List (String × InkOrder)
  nextId : Nat
  deriving Repr, DecidableEq

/-- The store-assigned identifier for the n-th created document. -/
def freshId (n : Nat) : String := "oid" ++ toString n

/-- Modelled from the spec: `create_document` of database.py (imported by
src/main.py but absent from src/) is the Document Store Adapter operation
`create(collection, record) → identifier`.  It appends the record to the
named collection under a fresh store-assigned identifier. -/
def create_document {α : Type} (l : List (String × α)) (n : Nat) (a : α) :
    List (String × α) :=
  l ++ [(freshId n, a)]

/-- Modelled from the spec: `get_documents` of database.py is the adapter
operation `query(collection, filter) → sequence of records`, filters
being simple equality predicates over declared fields; an empty filter
returns the whole collection. -/
def get_documents {α : Type} (l : List (String × α))
    (filt : Option (α → Bool)) : List (String × α) :=
  match filt with
  | none => l
  | some f => l.filter (fun e => f e.2)

/-- One observable action performed by a handler, in program order:
a store round trip or the scheduling of a background task. -/
inductive Event where
  | createDoc (coll : String)
  | queryDocs (coll : String)
  | updateDoc (coll : String)
  | deleteDoc (coll : String)
  | scheduleTask
  deriving Repr, DecidableEq

/-- `update_one` on an association list: sets the fields of the record
whose `_id` matches, leaving every other record alone. -/
def updateById {α : Type} (l : List (String × α)) (id : String) (a : α) :
    List (String × α) :=
  l.map (fun e => if e.1 = id then (e.1, a) else e)

/-- The matched-count reported by `update_one` / deleted-count reported
by `delete_one` for an `_id` equality filter. -/
def matchCount {α : Type} (l : List (String × α)) (id : String) : Nat :=
  if l.any (fun e => e.1 = id) then 1 else 0

/-- `delete_one` on an association list with an `_id` equality filter. -/
def deleteById {α : Type} (l : List (String × α)) (id : String) :
    List (String × α) :=
  l.filter (fun e => !(e.1 = id))

/-- An HTTP error raised by a handler via `HTTPException`. -/
structure HttpError where
  code : Nat
  detail : String
  deriving Repr, DecidableEq

/-- The 401 raised by every admin route on a token mismatch. -/
def unauthorized : HttpError := ⟨401, "Unauthorized"⟩

/-- Whether a handler result is the admin-gate authorization failure. -/
def isAuthFailure {α : Type} : Except HttpError α → Bool
  | .error e => e.code = 401
  | .ok _ => false

/-- Embeds the public `GET /products` handler (src/main.py lines 66-75):
a falsy `category` query parameter — absent or the empty string — yields
an empty filter, otherwise an equality filter on the category field. -/
def list_products (category : Option String) (s : Store) : List Product :=
  let filt : Option (Product → Bool) :=
    match category with
    | none => none
    | some c => if c = "" then none else some (fun p => p.category = c)
  (get_documents s.products filt).map (fun e => e.2)

/-- Embeds the public `GET /business` handler (src/main.py lines 77-84):
the first business record, or absent. -/
def get_business_details (s : Store) : Option Business :=
  ((get_documents s.businesses none).head?).map (fun e => e.2)

/-- Renders `quantity_liters` the way the f-strings of
`send_order_email` interpolate it. -/
def qtyStr (q : ℚ) : String := toString q

/-- Python `x or "-"` on an optional string: the placeholder replaces
both an absent value and the empty string (both are falsy). -/
def strOr (o : Option String) (d : String) : String :=
  match o with
  | none => d
  | some s => if s = "" then d else s

/-- The subject line composed by `send_order_email`
(src/main.py line 99). -/
def orderEmailSubject (o : InkOrder) : String :=
  "New Ink Order: " ++ o.color ++ " - " ++ qtyStr o.quantity_liters ++ " L"

/-- The plain-text body composed by `send_order_email`
(src/main.py lines 103-112). -/
def orderEmailBody (o : InkOrder) : String :=
  "New Ink Order Received\n\n" ++
  "Customer: " ++ o.customer_name ++ "\n" ++
  "Email: " ++ o.customer_email ++ "\n" ++
  "Phone: " ++ strOr o.customer_phone "-" ++ "\n\n" ++
  "Color: " ++ o.color ++ "\n" ++
  "Quantity (L): " ++ qtyStr o.quantity_liters ++ "\n" ++
  "Delivery Address: " ++ strOr o.delivery_address "-" ++ "\n\n" ++
  "Message:\n" ++ strOr o.message "-" ++ "\n"

/-- A background notification task scheduled by `create_ink_order`:
the arguments handed to `send_order_email`. -/
structure DispatchTask where
  order : InkOrder
  business : Business
  deriving Repr, DecidableEq

/-- The JSON response of `POST /orders/ink`. -/
structure InkOrderResp where
  status : String
  email : Option String
  deriving Repr, DecidableEq

/-- The full outcome of one `POST /orders/ink` request. -/
structure IntakeOutcome where
  resp : InkOrderResp
  store : Store
  events : List Event
  tasks : List DispatchTask
  deriving Repr, DecidableEq

/-- Embeds the `POST /orders/ink` handler (src/main.py lines 122-138):
store the order first, then fetch the business profile; with no profile
answer `stored / not_configured` and schedule nothing, otherwise
schedule `send_order_email` as a background task and answer `ok`.  The
handler never consults the SMTP environment; only the scheduled task
does. -/
def create_ink_order (order : InkOrder) (s : Store) : IntakeOutcome :=
  let s1 : Store :=
    { s with inkorders := create_document s.inkorders s.nextId order,
             nextId := s.nextId + 1 }
  match get_documents s1.businesses none with
  | [] =>
      ⟨⟨"stored", some "not_configured"⟩, s1,
        [Event.createDoc "inkorder", Event.queryDocs "business"], []⟩
  | (_, b) :: _ =>
      ⟨⟨"ok", none⟩, s1,
        [Event.createDoc "inkorder", Event.queryDocs "business",
         Event.scheduleTask],
        [⟨order, b⟩]⟩

/-- The outcome of an admin request: the handler result or a raised
`HTTPException`, the successor store, and the store events performed. -/
structure AdminOutcome (α : Type) where
  result : Except HttpError α
  store : Store
  events : List Event

/-- Embeds `GET /admin/products` (src/main.py lines 145-157): gate on
the token, then list every product with its identifier exposed. -/
def admin_list_products (tok : String) (x_admin_token : Option String)
    (s : Store) : AdminOutcome (List (Product × String)) :=
  if x_admin_token ≠ some tok then ⟨.error unauthorized, s, []⟩
  else
    ⟨.ok ((get_documents s.products none).map (fun e => (e.2, e.1))), s,
      [Event.queryDocs "product"]⟩

/-- Embeds `POST /admin/products` (src/main.py lines 159-164): gate on
the token, then insert the product and return the new identifier. -/
def admin_create_product (tok : String) (product : Product)
    (x_admin_token : Option String) (s : Store) : AdminOutcome String :=
  if x_admin_token ≠ some tok then ⟨.error unauthorized, s, []⟩
  else
    ⟨.ok (freshId s.nextId),
      { s with products := create_document s.products s.nextId product,
               nextId := s.nextId + 1 },
      [Event.createDoc "product"]⟩

/-- Embeds `PUT /admin/products/id` (src/main.py lines 166-175): gate on
the token, reject a malformed identifier with 400 before any store
round trip, update by identifier, and answer 404 when the matched count
is zero. -/
def admin_update_product (tok : String) (product_id : String)
    (product : Product) (x_admin_token : Option String) (s : Store) :
    AdminOutcome Bool :=
  if x_admin_token ≠ some tok then ⟨.error unauthorized, s, []⟩
  else if !ObjectId.is_valid product_id then
    ⟨.error ⟨400, "Invalid ID"⟩, s, []⟩
  else
    let matched := matchCount s.products product_id
    let s1 := { s with products := updateById s.products product_id product }
    if matched = 0 then
      ⟨.error ⟨404, "Not found"⟩, s1, [Event.updateDoc "product"]⟩
    else
      ⟨.ok true, s1, [Event.updateDoc "product"]⟩

/-- Embeds `DELETE /admin/products/id` (src/main.py lines 177-186):
gate on the token, reject a malformed identifier with 400 before any
store round trip, delete by identifier, and answer 404 when the deleted
count is zero. -/
def admin_delete_product (tok : String) (product_id : String)
    (x_admin_token : Option String) (s : Store) : AdminOutcome Bool :=
  if x_admin_token ≠ some tok then ⟨.error unauthorized, s, []⟩
  else if !ObjectId.is_valid product_id then
    ⟨.error ⟨400, "Invalid ID"⟩, s, []⟩
  else
    let deleted := matchCount s.products product_id
    let s1 := { s with products := deleteById s.products product_id }
    if deleted = 0 then
      ⟨.error ⟨404, "Not found"⟩, s1, [Event.deleteDoc "product"]⟩
    else
      ⟨.ok true, s1, [Event.deleteDoc "product"]⟩

/-- Embeds `GET /admin/business` (src/main.py lines 188-198): gate on
the token, then the first business record with its identifier, or
absent. -/
def admin_get_business (tok : String) (x_admin_token : Option String)
    (s : Store) : AdminOutcome (Option (Business × String)) :=
  if x_admin_token ≠ some tok then ⟨.error unauthorized, s, []⟩
  else
    ⟨.ok (((get_documents s.businesses none).head?).map (fun e => (e.2, e.1))),
      s, [Event.queryDocs "business"]⟩

/-- The JSON response of `PUT /admin/business`. -/
inductive UpsertResp where
  | created
  | updated
  deriving Repr, DecidableEq

/-- Embeds `PUT /admin/business` (src/main.py lines 200-210): gate on
the token, query the singleton collection; create and report Created
when it is empty, otherwise set the fields of the first record in place
by its identifier and report Updated. -/
def admin_upsert_business (tok : String) (business : Business)
    (x_admin_token : Option String) (s : Store) : AdminOutcome UpsertResp :=
  if x_admin_token ≠ some tok then ⟨.error unauthorized, s, []⟩
  else
    match get_documents s.businesses none with
    | [] =>
        ⟨.ok .created,
          { s with businesses := create_document s.businesses s.nextId business,
                   nextId := s.nextId + 1 },
          [Event.queryDocs "business", Event.createDoc "business"]⟩
    | (id0, _) :: _ =>
        ⟨.ok .updated,
          { s with businesses := updateById s.businesses id0 business },
          [Event.queryDocs "business", Event.updateDoc "business"]⟩

/-- Substring containment: the needle occurs verbatim inside the
haystack. -/
def Contains (h n : String) : Prop := ∃ p q, h = p ++ n ++ q

/-- The empty store, before any document was created. -/
def emptyStore : Store := ⟨[], [], [], 0⟩

/-- A sample valid ink order, used by witnesses. -/
def sampleOrder : InkOrder := ⟨"A", "a@x.com", none, "Red", 5, none, none⟩

/-- A sample business profile, used by witnesses. -/
def sampleBusiness : Business :=
  ⟨"Laxmi", "biz@x.com", none, none, none, none, none, none, none⟩

/-- A second sample business profile with a changed phone, used by
witnesses. -/
def sampleBusiness2 : Business :=
  ⟨"Laxmi", "biz@x.com", some "99", none, none, none, none, none, none⟩

/-- A sample product, used by witnesses. -/
def sampleProduct : Product := ⟨"Pen", none, 10, "ink", true, none⟩

/-- When no record of the collection carries the identifier, the
`update_one` round trip leaves the collection unchanged. -/
theorem updateById_eq_self {α : Type} (id : String) (a : α) :
    ∀ (l : List (String × α)), (∀ e ∈ l, e.1 ≠ id) → updateById l id a = l
  | [], _ => rfl
  | e :: t, h => by
      have ih := updateById_eq_self id a t
        (fun x hx => h x (List.mem_cons_of_mem e hx))
      unfold updateById at ih ⊢
      simp only [List.map_cons]
      rw [if_neg (h e (List.mem_cons_self e t)), ih]

/-- When no record of the collection carries the identifier, the
`delete_one` round trip leaves the collection unchanged. -/
theorem deleteById_eq_self {α : Type} (id : String) :
    ∀ (l : List (String × α)), (∀ e ∈ l, e.1 ≠ id) → deleteById l id = l
  | [], _ => rfl
  | e :: t, h => by
      have ih := deleteById_eq_self id t
        (fun x hx => h x (List.mem_cons_of_mem e hx))
      unfold deleteById at ih ⊢
      simp only [List.filter_cons]
      rw [if_pos (by simpa using h e (List.mem_cons_self e t)), ih]

/-- A zero matched-count means no record carries the identifier. -/
theorem matchCount_zero_no_match {α : Type} (l : List (String × α))
    (id : String) (h : matchCount l id = 0) : ∀ e ∈ l, e.1 ≠ id := by
  intro e he heq
  have hany : l.any (fun x => decide (x.1 = id)) = true :=
    List.any_eq_true.mpr ⟨e, he, by simp [heq]⟩
  simp [matchCount, hany] at h

/-- C10: in the public product listing, a `category` query parameter
equal to the empty string is falsy, so it builds the empty filter: the
result is every stored product, exactly the unfiltered listing. -/
theorem empty_category_lists_all_products (s : Store) :
    list_products (some "") s = s.products.map (fun e => e.2) ∧
    list_products (some "") s = list_products none s := by
  constructor <;> simp [list_products, get_documents]

/-- C1: a valid ink order submission appends the order to the order
collection, the very first action of the handler is that store write —
before the business-profile lookup and before any scheduling — and the
response is always an accepted one, whatever the business-profile or
SMTP configuration state (the handler never reads the SMTP settings). -/
theorem order_persisted_before_notification (order : InkOrder) (s : Store) :
    (create_ink_order order s).store.inkorders
        = s.inkorders ++ [(freshId s.nextId, order)] ∧
    ((create_ink_order order s).resp.status = "stored" ∨
      (create_ink_order order s).resp.status = "ok") ∧
    ((create_ink_order order s).events.head?
        = some (Event.createDoc "inkorder")) ∧
    ((create_ink_order order s).events
        = [Event.createDoc "inkorder", Event.queryDocs "business"] ∨
     (create_ink_order order s).events
        = [Event.createDoc "inkorder", Event.queryDocs "business",
           Event.scheduleTask]) := by
  rcases s with ⟨ps, bs, os, n⟩
  cases bs <;> simp [create_ink_order, create_document, get_documents]

/-- C4: when no business profile exists, order submission answers
`stored` with `email = not_configured` and schedules no dispatch task,
while the order is still persisted. -/
theorem no_business_stored_not_configured (order : InkOrder) (s : Store)
    (h : s.businesses = []) :
    (create_ink_order order s).resp = ⟨"stored", some "not_configured"⟩ ∧
    (create_ink_order order s).tasks = [] ∧
    (create_ink_order order s).store.inkorders
        = s.inkorders ++ [(freshId s.nextId, order)] := by
  rcases s with ⟨ps, bs, os, n⟩
  simp only [Store.mk.injEq] at h
  subst h
  simp [create_ink_order, create_document, get_documents]

/-- Witness for C4 at the empty store and the sample order. -/
theorem no_business_stored_not_configured_witness :
    emptyStore.businesses = [] ∧
    ((create_ink_order sampleOrder emptyStore).resp
        = ⟨"stored", some "not_configured"⟩ ∧
     (create_ink_order sampleOrder emptyStore).tasks = [] ∧
     (create_ink_order sampleOrder emptyStore).store.inkorders
        = emptyStore.inkorders ++ [(freshId emptyStore.nextId, sampleOrder)]) :=
  ⟨rfl, no_business_stored_not_configured sampleOrder emptyStore rfl⟩

/-- C2: with a valid token, `upsertBusiness` on an empty singleton
collection creates the record and reports Created; on a collection
holding one record it replaces that same record in place, keyed by its
store identifier, and reports Updated; and two sequential calls with
different payloads starting from no record leave exactly one stored
record whose fields are the second payload. -/
theorem upsert_business_singleton (tok : String) (b1 b2 : Business)
    (s : Store) (h : s.businesses = []) :
    (admin_upsert_business tok b1 (some tok) s).result = .ok .created ∧
    (admin_upsert_business tok b1 (some tok) s).store.businesses
        = [(freshId s.nextId, b1)] ∧
    (∀ (t : Store) (id : String) (b0 : Business),
      t.businesses = [(id, b0)] →
      (admin_upsert_business tok b2 (some tok) t).result = .ok .updated ∧
      (admin_upsert_business tok b2 (some tok) t).store.businesses
          = [(id, b2)]) ∧
    (admin_upsert_business tok b2 (some tok)
        (admin_upsert_business tok b1 (some tok) s).store).store.businesses
      = [(freshId s.nextId, b2)] := by
  refine ⟨?_, ?_, ?_, ?_⟩
  · simp [admin_upsert_business, get_documents, h]
  · simp [admin_upsert_business, get_documents, create_document, h]
  · intro t id b0 ht
    constructor <;>
      simp [admin_upsert_business, get_documents, updateById, ht]
  · simp [admin_upsert_business, get_documents, create_document,
      updateById, h]

/-- Witness for C2: two sequential upserts with the two sample payloads
from the empty store leave exactly one record holding the second
payload. -/
theorem upsert_business_singleton_witness :
    (admin_upsert_business "secret" sampleBusiness (some "secret")
        emptyStore).result = .ok .created ∧
    (admin_upsert_business "secret" sampleBusiness2 (some "secret")
        (admin_upsert_business "secret" sampleBusiness (some "secret")
          emptyStore).store).store.businesses
      = [(freshId emptyStore.nextId, sampleBusiness2)] := by
  have h := upsert_business_singleton "secret" sampleBusiness
    sampleBusiness2 emptyStore rfl
  exact ⟨h.1, h.2.2.2⟩

/-- C3: every admin operation with an absent token, or any token other
than the configured secret, answers the 401 authorization failure,
performs no store action, and leaves the store unchanged. -/
theorem admin_gate_rejects (tok : String) (token : Option String)
    (p : Product) (pid : String) (b : Business) (s : Store)
    (h : token ≠ some tok) :
    admin_list_products tok token s = ⟨.error unauthorized, s, []⟩ ∧
    admin_create_product tok p token s = ⟨.error unauthorized, s, []⟩ ∧
    admin_update_product tok pid p token s = ⟨.error unauthorized, s, []⟩ ∧
    admin_delete_product tok pid token s = ⟨.error unauthorized, s, []⟩ ∧
    admin_get_business tok token s = ⟨.error unauthorized, s, []⟩ ∧
    admin_upsert_business tok b token s = ⟨.error unauthorized, s, []⟩ := by
  refine ⟨?_, ?_, ?_, ?_, ?_, ?_⟩ <;>
    simp [admin_list_products, admin_create_product, admin_update_product,
      admin_delete_product, admin_get_business, admin_upsert_business, h]

/-- Witness for C3: an absent token against the secret is rejected by
every admin operation with no state change. -/
theorem admin_gate_rejects_witness :
    admin_list_products "secret" none emptyStore
        = ⟨.error unauthorized, emptyStore, []⟩ ∧
    admin_upsert_business "secret" sampleBusiness none emptyStore
        = ⟨.error unauthorized, emptyStore, []⟩ := by
  have h := admin_gate_rejects "secret" none sampleProduct "x"
    sampleBusiness emptyStore (by simp)
  exact ⟨h.1, h.2.2.2.2.2⟩

/-- C5: with a valid token, `updateProduct` and `deleteProduct` on a
malformed identifier fail with 400 Invalid ID, perform no store action
and leave the store unchanged; on a well-formed identifier whose
matched-count and deleted-count is zero they fail with 404 Not found
only after the one store round trip, again leaving the store
unchanged. -/
theorem product_id_validation (tok pid : String) (p : Product)
    (s : Store) :
    (ObjectId.is_valid pid = false →
      admin_update_product tok pid p (some tok) s
          = ⟨.error ⟨400, "Invalid ID"⟩, s, []⟩ ∧
      admin_delete_product tok pid (some tok) s
          = ⟨.error ⟨400, "Invalid ID"⟩, s, []⟩) ∧
    (ObjectId.is_valid pid = true → matchCount s.products pid = 0 →
      admin_update_product tok pid p (some tok) s
          = ⟨.error ⟨404, "Not found"⟩, s, [Event.updateDoc "product"]⟩ ∧
      admin_delete_product tok pid (some tok) s
          = ⟨.error ⟨404, "Not found"⟩, s, [Event.deleteDoc "product"]⟩) := by
  constructor
  · intro hbad
    constructor <;>
      simp [admin_update_product, admin_delete_product, hbad]
  · intro hok hzero
    have hnm := matchCount_zero_no_match s.products pid hzero
    constructor
    · simp [admin_update_product, hok, hzero,
        updateById_eq_self pid p s.products hnm]
    · simp [admin_delete_product, hok, hzero,
        deleteById_eq_self pid s.products hnm]

/-- Witness for C5: a malformed identifier is rejected with 400 before
the store, and a well-formed absent identifier with 404 after the round
trip, on the empty store. -/
theorem product_id_validation_witness :
    admin_update_product "secret" "xx" sampleProduct (some "secret")
        emptyStore = ⟨.error ⟨400, "Invalid ID"⟩, emptyStore, []⟩ ∧
    admin_delete_product "secret" "0123456789abcdef01234567"
        (some "secret") emptyStore
      = ⟨.error ⟨404, "Not found"⟩, emptyStore,
          [Event.deleteDoc "product"]⟩ := by
  have h1 := product_id_validation "secret" "xx" sampleProduct emptyStore
  have h2 := product_id_validation "secret" "0123456789abcdef01234567"
    sampleProduct emptyStore
  exact ⟨(h1.1 (by decide)).1, (h2.2 (by decide) rfl).2⟩

/-- Counterexample to C6 as stated: pydantic validation of `InkOrder`
accepts the empty string as `color` — here a concrete submission with
`color` equal to the empty string passes validation and order creation
persists it. -/
theorem ink_order_empty_color_accepted :
    validateInkOrder
        ⟨some "A", some "a@x.com", none, some "", some 5, none, none⟩
      = .ok ⟨"A", "a@x.com", none, "", 5, none, none⟩ ∧
    (create_ink_order ⟨"A", "a@x.com", none, "", 5, none, none⟩
        emptyStore).store.inkorders
      = [(freshId 0, ⟨"A", "a@x.com", none, "", 5, none, none⟩)] :=
  ⟨rfl, rfl⟩

/-- C6 (amended): `InkOrder` validation requires the `color` field to be
present but accepts any string value for it, the empty string included;
an order with empty color passes validation and is persisted, while a
submission missing the color field is rejected with a validation
failure. -/
theorem ink_order_color_open_string (nm em col : String) (q : ℚ)
    (ph msg addr : Option String) (s : Store)
    (he : isEmailStr em = true) (hq : 0 < q) :
    validateInkOrder ⟨some nm, some em, ph, some col, some q, msg, addr⟩
        = .ok ⟨nm, em, ph, col, q, msg, addr⟩ ∧
    validateInkOrder ⟨some nm, some em, ph, none, some q, msg, addr⟩
        = .error "color: field required" ∧
    (create_ink_order ⟨nm, em, ph, col, q, msg, addr⟩ s).store.inkorders
        = s.inkorders
            ++ [(freshId s.nextId, ⟨nm, em, ph, col, q, msg, addr⟩)] := by
  refine ⟨?_, rfl, ?_⟩
  · simp [validateInkOrder, he, show ¬ q ≤ 0 from not_le.mpr hq]
  · rcases s with ⟨ps, bs, os, n⟩
    cases bs <;> simp [create_ink_order, create_document, get_documents]

/-- Witness for the amended C6 at a concrete submission with empty
color and at one with the color field absent. -/
theorem ink_order_color_open_string_witness :
    validateInkOrder
        ⟨some "A", some "a@x.com", none, some "", some 5, none, none⟩
      = .ok ⟨"A", "a@x.com", none, "", 5, none, none⟩ ∧
    validateInkOrder
        ⟨some "A", some "a@x.com", none, none, some 5, none, none⟩
      = .error "color: field required" := by
  have h := ink_order_color_open_string "A" "a@x.com" "" 5 none none none
    emptyStore (by decide) (by norm_num)
  exact ⟨h.1, h.2.1⟩

/-- Counterexample to C7 as stated: pydantic validation of `Product`
accepts the empty string as `title` — here a concrete payload with an
empty title passes validation and `createProduct` persists it. -/
theorem product_empty_title_accepted :
    validateProduct ⟨some "", none, some 1, some "ink", none, none⟩
      = .ok ⟨"", none, 1, "ink", true, none⟩ ∧
    (admin_create_product "secret" ⟨"", none, 1, "ink", true, none⟩
        (some "secret") emptyStore).result = .ok (freshId 0) ∧
    (admin_create_product "secret" ⟨"", none, 1, "ink", true, none⟩
        (some "secret") emptyStore).store.products
      = [(freshId 0, ⟨"", none, 1, "ink", true, none⟩)] :=
  ⟨rfl, rfl, rfl⟩

/-- C7 (amended): `Product` validation requires the `title` field to be
present — a payload missing it is rejected with a validation failure —
but accepts any string value for it, the empty string included, and
`createProduct` persists such a product. -/
theorem product_title_validation (t cat : String) (pr : ℚ)
    (d iu : Option String) (ins : Option Bool) (tok : String) (s : Store)
    (hp : 0 ≤ pr) :
    validateProduct ⟨some t, d, some pr, some cat, ins, iu⟩
        = .ok ⟨t, d, pr, cat, ins.getD true, iu⟩ ∧
    validateProduct ⟨none, d, some pr, some cat, ins, iu⟩
        = .error "title: field required" ∧
    (admin_create_product tok ⟨t, d, pr, cat, ins.getD true, iu⟩
        (some tok) s).store.products
      = s.products
          ++ [(freshId s.nextId, ⟨t, d, pr, cat, ins.getD true, iu⟩)] := by
  refine ⟨?_, rfl, ?_⟩
  · simp [validateProduct, show ¬ pr < 0 from not_lt.mpr hp]
  · simp [admin_create_product, create_document]

/-- Witness for the amended C7 at a concrete payload with empty title
and at one with the title field absent. -/
theorem product_title_validation_witness :
    validateProduct ⟨some "", none, some 1, some "ink", none, none⟩
      = .ok ⟨"", none, 1, "ink", true, none⟩ ∧
    validateProduct ⟨none, none, some 1, some "ink", none, none⟩
      = .error "title: field required" := by
  have h := product_title_validation "" "ink" 1 none none none "secret"
    emptyStore (by norm_num)
  exact ⟨h.1, h.2.1⟩

/-- C8: the composed notification message has a subject holding the
order color and rendered quantity, and a body listing, each behind its
label, the customer name, customer email, phone, color, quantity,
delivery address and message, where an optional field renders through
the falsy-or fallback whose value on an absent field is the literal
placeholder. -/
theorem order_email_contract (o : InkOrder) :
    Contains (orderEmailSubject o) o.color ∧
    Contains (orderEmailSubject o) (qtyStr o.quantity_liters) ∧
    Contains (orderEmailBody o) ("Customer: " ++ o.customer_name) ∧
    Contains (orderEmailBody o) ("Email: " ++ o.customer_email) ∧
    Contains (orderEmailBody o) ("Phone: " ++ strOr o.customer_phone "-") ∧
    Contains (orderEmailBody o) ("Color: " ++ o.color) ∧
    Contains (orderEmailBody o)
      ("Quantity (L): " ++ qtyStr o.quantity_liters) ∧
    Contains (orderEmailBody o)
      ("Delivery Address: " ++ strOr o.delivery_address "-") ∧
    Contains (orderEmailBody o) ("Message:\n" ++ strOr o.message "-") ∧
    strOr (none : Option String) "-" = "-" := by
  refine ⟨⟨"New Ink Order: ", " - " ++ qtyStr o.quantity_liters ++ " L", ?_⟩,
    ⟨"New Ink Order: " ++ o.color ++ " - ", " L", ?_⟩,
    ⟨"New Ink Order Received\n\n",
      "\n" ++ "Email: " ++ o.customer_email ++ "\n" ++ "Phone: "
        ++ strOr o.customer_phone "-" ++ "\n\n" ++ "Color: " ++ o.color
        ++ "\n" ++ "Quantity (L): " ++ qtyStr o.quantity_liters ++ "\n"
        ++ "Delivery Address: " ++ strOr o.delivery_address "-" ++ "\n\n"
        ++ "Message:\n" ++ strOr o.message "-" ++ "\n", ?_⟩,
    ⟨"New Ink Order Received\n\n" ++ "Customer: " ++ o.customer_name
        ++ "\n",
      "\n" ++ "Phone: " ++ strOr o.customer_phone "-" ++ "\n\n"
        ++ "Color: " ++ o.color ++ "\n" ++ "Quantity (L): "
        ++ qtyStr o.quantity_liters ++ "\n" ++ "Delivery Address: "
        ++ strOr o.delivery_address "-" ++ "\n\n" ++ "Message:\n"
        ++ strOr o.message "-" ++ "\n", ?_⟩,
    ⟨"New Ink Order Received\n\n" ++ "Customer: " ++ o.customer_name
        ++ "\n" ++ "Email: " ++ o.customer_email ++ "\n",
      "\n\n" ++ "Color: " ++ o.color ++ "\n" ++ "Quantity (L): "
        ++ qtyStr o.quantity_liters ++ "\n" ++ "Delivery Address: "
        ++ strOr o.delivery_address "-" ++ "\n\n" ++ "Message:\n"
        ++ strOr o.message "-" ++ "\n", ?_⟩,
    ⟨"New Ink Order Received\n\n" ++ "Customer: " ++ o.customer_name
        ++ "\n" ++ "Email: " ++ o.customer_email ++ "\n" ++ "Phone: "
        ++ strOr o.customer_phone "-" ++ "\n\n",
      "\n" ++ "Quantity (L): " ++ qtyStr o.quantity_liters ++ "\n"
        ++ "Delivery Address: " ++ strOr o.delivery_address "-" ++ "\n\n"
        ++ "Message:\n" ++ strOr o.message "-" ++ "\n", ?_⟩,
    ⟨"New Ink Order Received\n\n" ++ "Customer: " ++ o.customer_name
        ++ "\n" ++ "Email: " ++ o.customer_email ++ "\n" ++ "Phone: "
        ++ strOr o.customer_phone "-" ++ "\n\n" ++ "Color: " ++ o.color
        ++ "\n",
      "\n" ++ "Delivery Address: " ++ strOr o.delivery_address "-"
        ++ "\n\n" ++ "Message:\n" ++ strOr o.message "-" ++ "\n", ?_⟩,
    ⟨"New Ink Order Received\n\n" ++ "Customer: " ++ o.customer_name
        ++ "\n" ++ "Email: " ++ o.customer_email ++ "\n" ++ "Phone: "
        ++ strOr o.customer_phone "-" ++ "\n\n" ++ "Color: " ++ o.color
        ++ "\n" ++ "Quantity (L): " ++ qtyStr o.quantity_liters ++ "\n",
      "\n\n" ++ "Message:\n" ++ strOr o.message "-" ++ "\n", ?_⟩,
    ⟨"New Ink Order Received\n\n" ++ "Customer: " ++ o.customer_name
        ++ "\n" ++ "Email: " ++ o.customer_email ++ "\n" ++ "Phone: "
        ++ strOr o.customer_phone "-" ++ "\n\n" ++ "Color: " ++ o.color
        ++ "\n" ++ "Quantity (L): " ++ qtyStr o.quantity_liters ++ "\n"
        ++ "Delivery Address: " ++ strOr o.delivery_address "-"
        ++ "\n\n",
      "\n", ?_⟩, rfl⟩ <;>
    simp only [orderEmailSubject, orderEmailBody, String.append_assoc]

/-- C9: with the `ADMIN_TOKEN` environment variable unset, the
configured admin secret is the literal `changeme`, and every admin
operation authorizes a caller presenting the token `changeme` — none of
them answers the 401 authorization failure. -/
theorem admin_token_defaults_to_changeme (env : Env) (s : Store)
    (p : Product) (pid : String) (b : Business)
    (h : getenv env "ADMIN_TOKEN" = none) :
    ADMIN_TOKEN env = "changeme" ∧
    isAuthFailure (admin_list_products (ADMIN_TOKEN env) (some "changeme")
        s).result = false ∧
    isAuthFailure (admin_create_product (ADMIN_TOKEN env) p
        (some "changeme") s).result = false ∧
    isAuthFailure (admin_update_product (ADMIN_TOKEN env) pid p
        (some "changeme") s).result = false ∧
    isAuthFailure (admin_delete_product (ADMIN_TOKEN env) pid
        (some "changeme") s).result = false ∧
    isAuthFailure (admin_get_business (ADMIN_TOKEN env) (some "changeme")
        s).result = false ∧
    isAuthFailure (admin_upsert_business (ADMIN_TOKEN env) b
        (some "changeme") s).result = false := by
  have ht : ADMIN_TOKEN env = "changeme" := by
    simp [ADMIN_TOKEN, getenvD, h]
  rw [ht]
  refine ⟨rfl, ?_, ?_, ?_, ?_, ?_, ?_⟩
  · simp [admin_list_products, isAuthFailure]
  · simp [admin_create_product, isAuthFailure]
  · unfold admin_update_product
    split
    · simp_all
    · split
      · simp [isAuthFailure]
      · by_cases hm : matchCount s.products pid = 0 <;>
          simp [isAuthFailure, hm]
  · unfold admin_delete_product
    split
    · simp_all
    · split
      · simp [isAuthFailure]
      · by_cases hm : matchCount s.products pid = 0 <;>
          simp [isAuthFailure, hm]
  · simp [admin_get_business, isAuthFailure]
  · unfold admin_upsert_business
    split
    · simp_all
    · split <;> simp [isAuthFailure]

/-- Witness for C9: with an empty environment the secret is `changeme`
and the product-listing and upsert admin operations accept that
token. -/
theorem admin_token_defaults_to_changeme_witness :
    ADMIN_TOKEN [] = "changeme" ∧
    isAuthFailure (admin_list_products (ADMIN_TOKEN []) (some "changeme")
        emptyStore).result = false ∧
    isAuthFailure (admin_upsert_business (ADMIN_TOKEN []) sampleBusiness
        (some "changeme") emptyStore).result = false := by
  have h := admin_token_defaults_to_changeme [] emptyStore sampleProduct
    "xx" sampleBusiness rfl
  exact ⟨h.1, h.2.1, h.2.2.2.2.2.2⟩
